import Mathlib

/-!
Shallow embedding of `uefi-core/stacktrace/resolve_stacktrace/pdbhelper.cpp`.

The file wraps Microsoft's DIA SDK (an external, black-box debug-information
provider) behind two exported C functions:

* `ResolveStackFrameSymbols`  (outer driver, lines 157-242) calling
  `ResolveStackFrameSymbolsInternal` (lines 53-155);
* `MatchModuleWithPdbFile`    (lines 244-445).

The provider (COM / DIA) is modelled abstractly: each COM call the code makes
is a field of an environment record holding the response of that call.  A
response `Except.ok v` means the call returned `S_OK` and wrote `v` to its out
parameter; `Except.error e` means the call returned the non-`S_OK` HRESULT
`e` and wrote nothing.  For the calls whose result the code checks with the
`FAILED` macro, the error codes are taken negative (`FailCode`), matching the
COM convention that such calls return `S_OK` or a failure HRESULT; the two
symbol-name getters are checked by the code with `!= S_OK`, so their error
codes are unconstrained.

Uninitialized stack memory matters here: both entry points declare a local
`wchar_t ErrorMessageFmtBuffer[256]` that is copied into `*ErrorMessageOut`
unconditionally before returning (lines 153, 240, 443), even on paths that
never formatted a message into it.  The embedding therefore takes the initial
(garbage) contents of each buffer as an explicit `String` input.
-/

namespace PdbHelper

/-- HRESULT values are 32-bit signed integers; we carry them as `Int`. -/
abbrev HResult := Int

/-- The COM success code `S_OK` (0). -/
def S_OK : HResult := 0

/-- The COM alternate success code `S_FALSE` (1); notably not a failure under
the `FAILED` macro. -/
def S_FALSE : HResult := 1

/-- The `FAILED` macro from `winerror.h`: an HRESULT fails iff it is negative. -/
def FAILED (hr : HResult) : Bool := hr < 0

/-- A failure HRESULT: a negative code, as produced by the provider calls the
code checks with `FAILED`. -/
structure FailCode where
  code : Int
  isFail : code < 0

/-- Uppercase hexadecimal digit, as produced by the `%lX` format specifier. -/
def hexChar (n : Nat) : Char :=
  if n < 10 then Char.ofNat (48 + n) else Char.ofNat (55 + n)

/-- Hex digits of `n`, most significant first; `fuel` bounds the recursion
(8 digits suffice for a 32-bit value). -/
def hexChars : Nat → Nat → List Char
  | 0, _ => []
  | _ + 1, 0 => []
  | fuel + 1, n => hexChars fuel (n / 16) ++ [hexChar (n % 16)]

/-- Rendering of an HRESULT by `%lX`: the 32-bit value printed as unsigned
uppercase hex. -/
def hexU32 (hr : Int) : String :=
  let m := (hr % (2 ^ 32)).toNat
  if m = 0 then "0" else String.mk (hexChars 8 m)

/-- `StringCchPrintfW(buf, _, L"<msg> (HRESULT: 0x%lX)", hr)`: the contents of
the format buffer after any of the failure branches. -/
def fmtHr (msg : String) (hr : Int) : String :=
  msg ++ " (HRESULT: 0x" ++ hexU32 hr ++ ")"

/-- Conversion of an unsigned 32-bit value to a `LONG`, as in
`*LineNumberOut = LineNumber` (DWORD to LONG). -/
def toLONG (n : Nat) : Int :=
  let m : Nat := n % 2 ^ 32
  if m < 2 ^ 31 then (m : Int) else (m : Int) - 2 ^ 32

/-- Responses of an `IDiaSourceFile` object: the one query the code makes. -/
structure DiaSrcFileObj where
  fileName : Except FailCode String

/-- Responses of an `IDiaLineNumber` object: the two queries the code makes. -/
structure DiaLineObj where
  lineNumber : Except FailCode Nat
  sourceFile : Except FailCode DiaSrcFileObj

/-- Responses of the `IDiaSymbol` returned by `findSymbolByRVAEx`.  The code
checks these two getters with `!= S_OK`, so the error code is any non-`S_OK`
HRESULT (e.g. `S_FALSE` when the symbol has no such name). -/
structure DiaSymbolObj where
  undecoratedName : Except Int String
  name : Except Int String

/-- Responses of an open `IDiaSession` to the two queries the internal
resolver makes at a given RVA.  `findLinesByRVA` responds with the sequence
of line records the returned `IDiaEnumLineNumbers` enumerates. -/
structure DiaSession where
  findSymbolByRVAEx : Nat → Except FailCode (DiaSymbolObj × Int)
  findLinesByRVA : Nat → Except FailCode (List DiaLineObj)

/-- Responses to the four provider calls made by the outer
`ResolveStackFrameSymbols` before it delegates to the internal resolver. -/
structure DiaEnv where
  coInitialize : Except FailCode Unit
  coCreateInstance : Except FailCode Unit
  loadDataFromPdb : Except FailCode Unit
  openSession : Except FailCode DiaSession

/-- Out parameters of `ResolveStackFrameSymbolsInternal` as left on return.
The four result fields are written only on the success path (lines 140-143);
the defaults are the values the outer caller had initialized them to.
`errMsg` is `SysAllocString(ErrorMessageFmtBuffer)`, executed on every path
(line 153). -/
structure InternalResult where
  hr : HResult
  fileName : Option String := none
  lineNumber : Int := 0
  functionName : Option String := none
  displacement : Int := 0
  errMsg : String

/-- Function display name as computed by lines 86-90: the undecorated name if
the getter returned `S_OK` and the name is non-empty; otherwise the raw name
under the same test; otherwise the literal `"(None)"`. -/
def rawNameFallback (sym : DiaSymbolObj) : String :=
  match sym.name with
  | .ok s => if s = "" then "(None)" else s
  | .error _ => "(None)"

/-- First stage of the display-name fallback (line 86). -/
def nameFallback (sym : DiaSymbolObj) : String :=
  match sym.undecoratedName with
  | .ok s => if s = "" then rawNameFallback sym else s
  | .error _ => rawNameFallback sym

/-- `ResolveStackFrameSymbolsInternal` (pdbhelper.cpp lines 53-155).
`buf0` is the initial (uninitialized) contents of the local
`ErrorMessageFmtBuffer`.  Two faithful oddities of the source:

* line 93 tests `FAILED(Session->findLinesByRVA(...))` without storing the
  result in `Hr`, so that branch formats the stale `Hr` (which is `S_OK`
  from the successful symbol query) and returns it — a success code;
* line 101 `Next(1, ...)` fetches the first record of the enumeration per
  the COM enumerator contract: `S_OK` with one item when the sequence is
  non-empty, `S_FALSE` with zero items when it is empty.  A count other
  than 1 takes the failure branch, but the returned `Hr` is then `S_FALSE`,
  again not a failure HRESULT. -/
def resolveStackFrameSymbolsInternal (sess : DiaSession) (rva : Nat)
    (buf0 : String) : InternalResult :=
  match sess.findSymbolByRVAEx rva with
  | .error e =>
      { hr := e.code, errMsg := fmtHr "Failed to find Symbol by RVA" e.code }
  | .ok (sym, displacement) =>
      let functionName := nameFallback sym
      match sess.findLinesByRVA rva with
      | .error _ =>
          { hr := S_OK, errMsg := fmtHr "Failed to find line info by RVA" S_OK }
      | .ok lineRecs =>
          match lineRecs with
          | [] =>
              { hr := S_FALSE,
                errMsg := fmtHr "Failed to enumerate line number" S_FALSE }
          | lineRec :: _ =>
              match lineRec.lineNumber with
              | .error e =>
                  { hr := e.code,
                    errMsg := fmtHr "Failed to get line number" e.code }
              | .ok ln =>
                  match lineRec.sourceFile with
                  | .error e =>
                      { hr := e.code,
                        errMsg := fmtHr "Failed to get source file" e.code }
                  | .ok srcFile =>
                      match srcFile.fileName with
                      | .error e =>
                          { hr := e.code,
                            errMsg := fmtHr "Failed to get source file name" e.code }
                      | .ok fn =>
                          { hr := S_OK, fileName := some fn,
                            lineNumber := toLONG ln,
                            functionName := some functionName,
                            displacement := displacement, errMsg := buf0 }

/-- Out parameters of `ResolveStackFrameSymbols` as seen by the caller. -/
structure ResolveResult where
  hr : HResult
  fileName : Option String
  lineNumber : Int
  functionName : Option String
  displacement : Int
  errorMessage : String

/-- `ResolveStackFrameSymbols` (pdbhelper.cpp lines 157-242).  `outerBuf` and
`innerBuf` are the initial contents of the outer and internal format buffers.
Line 240 executes `*ErrorMessageOut = SysAllocString(ErrorMessageFmtBuffer)`
on every path, so when control reached the internal resolver the message the
internal function stored is overwritten with the outer buffer — which no
outer step has written on that path. -/
def resolveStackFrameSymbols (env : DiaEnv) (rva : Nat)
    (outerBuf innerBuf : String) : ResolveResult :=
  match env.coInitialize with
  | .error e =>
      ⟨e.code, none, 0, none, 0, fmtHr "Failed to initialize COM" e.code⟩
  | .ok _ =>
      match env.coCreateInstance with
      | .error e =>
          ⟨e.code, none, 0, none, 0,
           fmtHr "Failed to create DIA data source instance." e.code⟩
      | .ok _ =>
          match env.loadDataFromPdb with
          | .error e =>
              ⟨e.code, none, 0, none, 0, fmtHr "Failed to load PDB file" e.code⟩
          | .ok _ =>
              match env.openSession with
              | .error e =>
                  ⟨e.code, none, 0, none, 0,
                   fmtHr "Failed to open DIA Session" e.code⟩
              | .ok sess =>
                  let ir := resolveStackFrameSymbolsInternal sess rva innerBuf
                  ⟨ir.hr, ir.fileName, ir.lineNumber, ir.functionName,
                   ir.displacement, outerBuf⟩

/-- Responses to the provider calls made by `MatchModuleWithPdbFile`, in the
order the code issues them.  The GUID (a 128-bit value compared by `memcmp`)
is carried as a `Nat`; signature and age are 32-bit values. -/
structure MatchEnv where
  coInitialize : Except FailCode Unit
  coCreateInstanceExe : Except FailCode Unit
  loadDataForExe : Except FailCode Unit
  openSessionExe : Except FailCode Unit
  getGlobalScopeExe : Except FailCode Unit
  exeGuid : Except FailCode Nat
  exeSignature : Except FailCode Nat
  exeAge : Except FailCode Nat
  coCreateInstancePdb : Except FailCode Unit
  loadDataFromPdb : Except FailCode Unit
  openSessionPdb : Except FailCode Unit
  getGlobalScopePdb : Except FailCode Unit
  pdbGuid : Except FailCode Nat
  pdbSignature : Except FailCode Nat
  pdbAge : Except FailCode Nat

/-- Whether every provider call in a `MatchModuleWithPdbFile` run responds
with success. -/
def MatchEnv.allOk (env : MatchEnv) : Bool :=
  env.coInitialize.isOk && env.coCreateInstanceExe.isOk &&
  env.loadDataForExe.isOk && env.openSessionExe.isOk &&
  env.getGlobalScopeExe.isOk && env.exeGuid.isOk &&
  env.exeSignature.isOk && env.exeAge.isOk &&
  env.coCreateInstancePdb.isOk && env.loadDataFromPdb.isOk &&
  env.openSessionPdb.isOk && env.getGlobalScopePdb.isOk &&
  env.pdbGuid.isOk && env.pdbSignature.isOk && env.pdbAge.isOk

/-- Out parameters of `MatchModuleWithPdbFile` as seen by the caller. -/
structure MatchResult where
  hr : HResult
  isMatched : Bool
  errMsg : String

/-- Observable provider/resource events of one `MatchModuleWithPdbFile`
execution, in program order: each provider call attempt, each `Release` the
code performs (both the mid-function releases at lines 352-354 and the
conditional ones in the `Cleanup` block at lines 439-441), and
`CoUninitialize` (line 442). -/
inductive MEvent where
  | coInit | createExeDS | loadExe | openExeSession | getScopeExe
  | queryExeGuid | queryExeSig | queryExeAge
  | releaseExeSymbol | releaseExeSession | releaseExeDS
  | createPdbDS | loadPdb | openPdbSession | getScopePdb
  | queryPdbGuid | queryPdbSig | queryPdbAge
  | releasePdbSymbol | releasePdbSession | releasePdbDS
  | coUninit
deriving DecidableEq, BEq

/-- `MatchModuleWithPdbFile` (pdbhelper.cpp lines 244-445) together with the
trace of provider/resource events of the run.  `buf0` is the initial
(uninitialized) contents of the local `ErrorMessageFmtBuffer`; line 443
copies the buffer into `*ErrorMessageOut` on every path, including the two
success outcomes (matched and not matched), where no message was ever
formatted.  The `Cleanup` releases only the handles that are non-null on the
given path, and `CoUninitialize` runs unconditionally. -/
def matchModuleWithPdbFile (env : MatchEnv) (buf0 : String) :
    MatchResult × List MEvent :=
  match env.coInitialize with
  | .error e =>
      (⟨e.code, false, fmtHr "Failed to initialize COM" e.code⟩,
       [.coInit, .coUninit])
  | .ok _ =>
  match env.coCreateInstanceExe with
  | .error e =>
      (⟨e.code, false, fmtHr "Failed to create DIA data source instance." e.code⟩,
       [.coInit, .createExeDS, .coUninit])
  | .ok _ =>
  match env.loadDataForExe with
  | .error e =>
      (⟨e.code, false, fmtHr "Failed to load exe file" e.code⟩,
       [.coInit, .createExeDS, .loadExe, .releaseExeDS, .coUninit])
  | .ok _ =>
  match env.openSessionExe with
  | .error e =>
      (⟨e.code, false, fmtHr "Failed to open DIA Session for exe" e.code⟩,
       [.coInit, .createExeDS, .loadExe, .openExeSession,
        .releaseExeDS, .coUninit])
  | .ok _ =>
  match env.getGlobalScopeExe with
  | .error e =>
      (⟨e.code, false, fmtHr "Failed to get global scope of the exe" e.code⟩,
       [.coInit, .createExeDS, .loadExe, .openExeSession, .getScopeExe,
        .releaseExeSession, .releaseExeDS, .coUninit])
  | .ok _ =>
  match env.exeGuid with
  | .error e =>
      (⟨e.code, false, fmtHr "Failed to get GUID of the exe" e.code⟩,
       [.coInit, .createExeDS, .loadExe, .openExeSession, .getScopeExe,
        .queryExeGuid, .releaseExeSymbol, .releaseExeSession, .releaseExeDS,
        .coUninit])
  | .ok exeGuid =>
  match env.exeSignature with
  | .error e =>
      (⟨e.code, false, fmtHr "Failed to get signature of the exe" e.code⟩,
       [.coInit, .createExeDS, .loadExe, .openExeSession, .getScopeExe,
        .queryExeGuid, .queryExeSig, .releaseExeSymbol, .releaseExeSession,
        .releaseExeDS, .coUninit])
  | .ok exeSignature =>
  match env.exeAge with
  | .error e =>
      (⟨e.code, false, fmtHr "Failed to get age of the exe" e.code⟩,
       [.coInit, .createExeDS, .loadExe, .openExeSession, .getScopeExe,
        .queryExeGuid, .queryExeSig, .queryExeAge, .releaseExeSymbol,
        .releaseExeSession, .releaseExeDS, .coUninit])
  | .ok exeAge =>
  -- lines 352-357: the exe symbol, session and data source are released and
  -- the pointers nulled before the PDB data source is created.
  match env.coCreateInstancePdb with
  | .error e =>
      (⟨e.code, false, fmtHr "Failed to create DIA data source instance." e.code⟩,
       [.coInit, .createExeDS, .loadExe, .openExeSession, .getScopeExe,
        .queryExeGuid, .queryExeSig, .queryExeAge, .releaseExeSymbol,
        .releaseExeSession, .releaseExeDS, .createPdbDS, .coUninit])
  | .ok _ =>
  match env.loadDataFromPdb with
  | .error e =>
      (⟨e.code, false, fmtHr "Failed to load PDB file" e.code⟩,
       [.coInit, .createExeDS, .loadExe, .openExeSession, .getScopeExe,
        .queryExeGuid, .queryExeSig, .queryExeAge, .releaseExeSymbol,
        .releaseExeSession, .releaseExeDS, .createPdbDS, .loadPdb,
        .releasePdbDS, .coUninit])
  | .ok _ =>
  match env.openSessionPdb with
  | .error e =>
      (⟨e.code, false, fmtHr "Failed to open DIA Session for PDB" e.code⟩,
       [.coInit, .createExeDS, .loadExe, .openExeSession, .getScopeExe,
        .queryExeGuid, .queryExeSig, .queryExeAge, .releaseExeSymbol,
        .releaseExeSession, .releaseExeDS, .createPdbDS, .loadPdb,
        .openPdbSession, .releasePdbDS, .coUninit])
  | .ok _ =>
  match env.getGlobalScopePdb with
  | .error e =>
      (⟨e.code, false, fmtHr "Failed to get global scope of the PDB" e.code⟩,
       [.coInit, .createExeDS, .loadExe, .openExeSession, .getScopeExe,
        .queryExeGuid, .queryExeSig, .queryExeAge, .releaseExeSymbol,
        .releaseExeSession, .releaseExeDS, .createPdbDS, .loadPdb,
        .openPdbSession, .getScopePdb, .releasePdbSession, .releasePdbDS,
        .coUninit])
  | .ok _ =>
  match env.pdbGuid with
  | .error e =>
      (⟨e.code, false, fmtHr "Failed to get GUID of the PDB" e.code⟩,
       [.coInit, .createExeDS, .loadExe, .openExeSession, .getScopeExe,
        .queryExeGuid, .queryExeSig, .queryExeAge, .releaseExeSymbol,
        .releaseExeSession, .releaseExeDS, .createPdbDS, .loadPdb,
        .openPdbSession, .getScopePdb, .queryPdbGuid, .releasePdbSymbol,
        .releasePdbSession, .releasePdbDS, .coUninit])
  | .ok pdbGuid =>
  match env.pdbSignature with
  | .error e =>
      (⟨e.code, false, fmtHr "Failed to get signature of the PDB" e.code⟩,
       [.coInit, .createExeDS, .loadExe, .openExeSession, .getScopeExe,
        .queryExeGuid, .queryExeSig, .queryExeAge, .releaseExeSymbol,
        .releaseExeSession, .releaseExeDS, .createPdbDS, .loadPdb,
        .openPdbSession, .getScopePdb, .queryPdbGuid, .queryPdbSig,
        .releasePdbSymbol, .releasePdbSession, .releasePdbDS, .coUninit])
  | .ok pdbSignature =>
  match env.pdbAge with
  | .error e =>
      (⟨e.code, false, fmtHr "Failed to get age of the PDB" e.code⟩,
       [.coInit, .createExeDS, .loadExe, .openExeSession, .getScopeExe,
        .queryExeGuid, .queryExeSig, .queryExeAge, .releaseExeSymbol,
        .releaseExeSession, .releaseExeDS, .createPdbDS, .loadPdb,
        .openPdbSession, .getScopePdb, .queryPdbGuid, .queryPdbSig,
        .queryPdbAge, .releasePdbSymbol, .releasePdbSession, .releasePdbDS,
        .coUninit])
  | .ok pdbAge =>
      -- lines 431-436: the comparison; S_OK; fall through to Cleanup.
      (⟨S_OK,
        pdbGuid == exeGuid && pdbSignature == exeSignature && pdbAge == exeAge,
        buf0⟩,
       [.coInit, .createExeDS, .loadExe, .openExeSession, .getScopeExe,
        .queryExeGuid, .queryExeSig, .queryExeAge, .releaseExeSymbol,
        .releaseExeSession, .releaseExeDS, .createPdbDS, .loadPdb,
        .openPdbSession, .getScopePdb, .queryPdbGuid, .queryPdbSig,
        .queryPdbAge, .releasePdbSymbol, .releasePdbSession, .releasePdbDS,
        .coUninit])

/-- Scan of an event trace tracking whether the module (exe) context and the
debug-store (PDB) context are open, where a context counts as open from its
data-source creation attempt until the matching data-source release (the
data-source release is the last of the three releases of a context, so its
release implies the symbol and session were already released).  Returns
`true` iff at some point both contexts are open at once. -/
def bothOpenScan : Bool → Bool → List MEvent → Bool
  | _, _, [] => false
  | m, s, e :: rest =>
      let m := if e = .createExeDS then true
               else if e = .releaseExeDS then false else m
      let s := if e = .createPdbDS then true
               else if e = .releasePdbDS then false else s
      (m && s) || bothOpenScan m s rest

/-- Whether the module context and the store context are ever simultaneously
open in a trace. -/
def everBothOpen (tr : List MEvent) : Bool := bothOpenScan false false tr

/-- A session whose two queries answer with fixed responses, independent of
the RVA (each call in one run queries a single RVA anyway). -/
def mkSession (symResp : Except FailCode (DiaSymbolObj × Int))
    (lineResp : Except FailCode (List DiaLineObj)) : DiaSession where
  findSymbolByRVAEx := fun _ => symResp
  findLinesByRVA := fun _ => lineResp

/-- A resolve environment whose four outer steps succeed and whose session
answers with the given responses. -/
def mkEnv (symResp : Except FailCode (DiaSymbolObj × Int))
    (lineResp : Except FailCode (List DiaLineObj)) : DiaEnv where
  coInitialize := .ok ()
  coCreateInstance := .ok ()
  loadDataFromPdb := .ok ()
  openSession := .ok (mkSession symResp lineResp)

/-- A function symbol of a debug store: its address range and the responses
of its two name getters. -/
structure FuncSym where
  startRVA : Nat
  size : Nat
  undecoratedName : Except Int String
  name : Except Int String

/-- A line record of a debug store: its address range, source file and line. -/
structure StoreLine where
  startRVA : Nat
  size : Nat
  file : String
  line : Nat

/-- Contents of a debug-symbol store, as far as the two queries see it. -/
structure DebugStore where
  funcs : List FuncSym
  lines : List StoreLine

/-- Whether a function's address range contains the RVA. -/
def funcContains (f : FuncSym) (rva : Nat) : Bool :=
  f.startRVA ≤ rva && rva < f.startRVA + f.size

/-- Whether a line record's address range contains the RVA. -/
def lineContains (l : StoreLine) (rva : Nat) : Bool :=
  l.startRVA ≤ rva && rva < l.startRVA + l.size

/-- Modelled from the spec: the external DIA provider's query semantics over
the contents of a loaded debug store (the provider is the black-box
collaborator of spec section 6, absent from the repository sources).
`FindSymbolByAddress` answers with the function whose address range contains
the RVA and `displacement = rva - functionStartAddress`; with no enclosing
function it fails.  `FindLinesByAddress` answers with the line records whose
ranges contain the RVA; the per-record getters succeed with the record's
stored data. -/
def storeSession (st : DebugStore) : DiaSession where
  findSymbolByRVAEx := fun rva =>
    match st.funcs.find? (funcContains · rva) with
    | some f => .ok (⟨f.undecoratedName, f.name⟩, (rva : Int) - (f.startRVA : Int))
    | none => .error ⟨-2147467259, by norm_num⟩
  findLinesByRVA := fun rva =>
    .ok ((st.lines.filter (lineContains · rva)).map
      (fun l => ⟨Except.ok l.line, Except.ok ⟨Except.ok l.file⟩⟩))

/-- Modelled from the spec: an environment in which the provider setup steps
succeed and the session queries a loaded debug store (the claim quantifies
over valid, loadable stores). -/
def storeEnv (st : DebugStore) : DiaEnv where
  coInitialize := .ok ()
  coCreateInstance := .ok ()
  loadDataFromPdb := .ok ()
  openSession := .ok (storeSession st)

/-- Absence of a symbol name, as the fallback chain of lines 86-90 tests it:
the getter did not return `S_OK`, or it returned the empty string. -/
def nameAbsent (r : Except Int String) : Prop :=
  ∀ s, r = Except.ok s → s = ""

/-- A line record object whose detail getters all succeed. -/
def okLine (n : Nat) (fn : String) : DiaLineObj :=
  ⟨Except.ok n, Except.ok ⟨Except.ok fn⟩⟩

/-- Fixture: a symbol object carrying both names. -/
def symBoth : DiaSymbolObj := ⟨Except.ok "Foo", Except.ok "rawFoo"⟩

/-- Fixture: an environment in which every step of a resolve call succeeds,
with one line record covering the RVA. -/
def envAllOkR : DiaEnv :=
  mkEnv (.ok (symBoth, 4)) (.ok [okLine 12 "main.c"])

/-- Fixture: an environment in which the line query yields two records. -/
def envTwoLines : DiaEnv :=
  mkEnv (.ok (symBoth, 4)) (.ok [okLine 10 "first.c", okLine 20 "second.c"])

/-- Fixture: an environment in which the symbol query fails with `E_FAIL`
(0x80004005). -/
def envSymFailA : DiaEnv :=
  mkEnv (.error ⟨-2147467259, by norm_num⟩) (.ok [])

/-- Fixture: an environment in which the symbol query fails with `E_NOTIMPL`
(0x80004001). -/
def envSymFailB : DiaEnv :=
  mkEnv (.error ⟨-2147467263, by norm_num⟩) (.ok [])

/-- Fixture: a match environment in which every provider call succeeds and
the exe and PDB identity triples agree. -/
def envAllOkM : MatchEnv where
  coInitialize := .ok ()
  coCreateInstanceExe := .ok ()
  loadDataForExe := .ok ()
  openSessionExe := .ok ()
  getGlobalScopeExe := .ok ()
  exeGuid := .ok 7
  exeSignature := .ok 3
  exeAge := .ok 1
  coCreateInstancePdb := .ok ()
  loadDataFromPdb := .ok ()
  openSessionPdb := .ok ()
  getGlobalScopePdb := .ok ()
  pdbGuid := .ok 7
  pdbSignature := .ok 3
  pdbAge := .ok 1

/-- Fixture: a match environment in which the exe GUID query fails with
`E_PENDING` (0x8000000A). -/
def envGuidFailM : MatchEnv :=
  { envAllOkM with exeGuid := .error ⟨-2147483638, by norm_num⟩ }

/-- Fixture: a debug store with one function and one line record. -/
def storeW : DebugStore where
  funcs := [⟨100, 50, Except.ok "Foo", Except.ok "rawFoo"⟩]
  lines := [⟨100, 50, "a.c", 42⟩]

/-- Fixture: a symbol object on which both name getters respond with a
non-`S_OK` HRESULT (`S_FALSE`). -/
def symNone : DiaSymbolObj := ⟨Except.error 1, Except.error 1⟩

/-- A formatted diagnostic is never the empty string: it always ends with the
HRESULT suffix. -/
theorem fmtHr_ne_empty (m : String) (hr : Int) : fmtHr m hr ≠ "" := by
  intro h
  have h2 := congrArg String.data h
  simp only [fmtHr, String.data_append] at h2
  have h5 : (")" : String).data = [] :=
    (List.append_eq_nil.mp h2).2
  exact absurd h5 (by decide)

/-- The second stage of the name fallback never yields the empty string. -/
theorem rawNameFallback_ne_empty (sym : DiaSymbolObj) :
    rawNameFallback sym ≠ "" := by
  rcases h : sym.name with e | s
  · simp only [rawNameFallback, h]
    decide
  · simp only [rawNameFallback, h]
    by_cases hs : s = ""
    · simp only [hs, if_true]
      decide
    · simp [hs]

/-- The display-name fallback never yields the empty string. -/
theorem nameFallback_ne_empty (sym : DiaSymbolObj) : nameFallback sym ≠ "" := by
  rcases h : sym.undecoratedName with e | s
  · simp only [nameFallback, h]
    exact rawNameFallback_ne_empty sym
  · simp only [nameFallback, h]
    by_cases hs : s = ""
    · simp only [hs, if_true]
      exact rawNameFallback_ne_empty sym
    · simp [hs]

/-- When filtering a list by `p` leaves exactly one element, `find?` returns
that element: the first hit of the scan is the single survivor. -/
theorem find?_of_filter_singleton {α : Type} (p : α → Bool) :
    ∀ (xs : List α) (a : α), xs.filter p = [a] → xs.find? p = some a := by
  intro xs
  induction xs with
  | nil => intro a h; simp at h
  | cons x xs ih =>
    intro a h
    by_cases hx : p x
    · simp only [List.filter_cons, hx, if_true] at h
      simp only [List.find?_cons, hx, if_true]
      injection h with h1 _
      exact congrArg some h1
    · simp only [List.filter_cons, hx, if_false] at h
      simp only [List.find?_cons, hx, if_false]
      exact ih a h

/-- The DWORD-to-LONG conversion is the identity below `2 ^ 31`. -/
theorem toLONG_of_lt (n : Nat) (h : n < 2 ^ 31) : toLONG n = (n : Int) := by
  have h32 : n % 2 ^ 32 = n := Nat.mod_eq_of_lt (by omega)
  simp only [toLONG, h32]
  rw [if_pos h]

/-- Claim C1: over a debug store in which the RVA falls strictly inside
exactly one function's address range and exactly one line record covers it,
`ResolveStackFrameSymbols` succeeds (`S_OK`), returns
`displacement = rva - functionStart`, a non-empty (and non-null) function
name, and the source file name and line number of that single line record.
The line-number bound reflects the DWORD-to-LONG copy of the output
parameter. -/
theorem resolve_unique_function_unique_line (st : DebugStore) (rva : Nat)
    (f : FuncSym) (l : StoreLine) (ob ib : String)
    (hf : st.funcs.filter (funcContains · rva) = [f])
    (hstrict : f.startRVA < rva)
    (hl : st.lines.filter (lineContains · rva) = [l])
    (hline : l.line < 2 ^ 31) :
    (resolveStackFrameSymbols (storeEnv st) rva ob ib).hr = S_OK ∧
    (resolveStackFrameSymbols (storeEnv st) rva ob ib).displacement =
      (rva : Int) - (f.startRVA : Int) ∧
    (resolveStackFrameSymbols (storeEnv st) rva ob ib).functionName =
      some (nameFallback ⟨f.undecoratedName, f.name⟩) ∧
    (resolveStackFrameSymbols (storeEnv st) rva ob ib).functionName ≠ some "" ∧
    (resolveStackFrameSymbols (storeEnv st) rva ob ib).functionName ≠ none ∧
    (resolveStackFrameSymbols (storeEnv st) rva ob ib).fileName = some l.file ∧
    (resolveStackFrameSymbols (storeEnv st) rva ob ib).lineNumber = (l.line : Int)
    := by
  have hfind : st.funcs.find? (funcContains · rva) = some f :=
    find?_of_filter_singleton _ _ _ hf
  have hres : resolveStackFrameSymbols (storeEnv st) rva ob ib =
      ⟨S_OK, some l.file, toLONG l.line,
       some (nameFallback ⟨f.undecoratedName, f.name⟩),
       (rva : Int) - (f.startRVA : Int), ob⟩ := by
    simp only [resolveStackFrameSymbols, storeEnv, resolveStackFrameSymbolsInternal,
      storeSession, hfind, hl, List.map]
  rw [hres]
  refine ⟨rfl, rfl, rfl, ?_, ?_, rfl, toLONG_of_lt _ hline⟩
  · simp [nameFallback_ne_empty]
  · simp

/-- Witness for C1: the single-function, single-line store `storeW` at
RVA 110 resolves to file `a.c`, line 42, displacement 10. -/
theorem resolve_unique_function_unique_line_witness :
    (resolveStackFrameSymbols (storeEnv storeW) 110 "o" "i").hr = S_OK ∧
    (resolveStackFrameSymbols (storeEnv storeW) 110 "o" "i").displacement =
      (110 : Int) - (100 : Int) ∧
    (resolveStackFrameSymbols (storeEnv storeW) 110 "o" "i").functionName =
      some (nameFallback ⟨Except.ok "Foo", Except.ok "rawFoo"⟩) ∧
    (resolveStackFrameSymbols (storeEnv storeW) 110 "o" "i").functionName ≠
      some "" ∧
    (resolveStackFrameSymbols (storeEnv storeW) 110 "o" "i").functionName ≠
      none ∧
    (resolveStackFrameSymbols (storeEnv storeW) 110 "o" "i").fileName =
      some "a.c" ∧
    (resolveStackFrameSymbols (storeEnv storeW) 110 "o" "i").lineNumber =
      (42 : Int) :=
  resolve_unique_function_unique_line storeW 110
    ⟨100, 50, Except.ok "Foo", Except.ok "rawFoo"⟩ ⟨100, 50, "a.c", 42⟩
    "o" "i" rfl (by decide) rfl (by decide)

/-- Claim C2: `MatchModuleWithPdbFile` reports `isMatched = true` exactly
when the exe and PDB identity triples agree in all three fields; when every
identity query succeeds the call returns `S_OK` even on a mismatch; and when
any provider call fails, the call returns a failure HRESULT, a non-empty
diagnostic, and `isMatched` stays false. -/
theorem match_identity_triple_spec (env : MatchEnv) (buf : String) :
    ((∀ g1 s1 a1 g2 s2 a2,
        env.coInitialize = .ok () → env.coCreateInstanceExe = .ok () →
        env.loadDataForExe = .ok () → env.openSessionExe = .ok () →
        env.getGlobalScopeExe = .ok () →
        env.exeGuid = .ok g1 → env.exeSignature = .ok s1 → env.exeAge = .ok a1 →
        env.coCreateInstancePdb = .ok () → env.loadDataFromPdb = .ok () →
        env.openSessionPdb = .ok () → env.getGlobalScopePdb = .ok () →
        env.pdbGuid = .ok g2 → env.pdbSignature = .ok s2 → env.pdbAge = .ok a2 →
        (matchModuleWithPdbFile env buf).1.hr = S_OK ∧
        ((matchModuleWithPdbFile env buf).1.isMatched = true ↔
          (g2 = g1 ∧ s2 = s1 ∧ a2 = a1))) ∧
     (env.allOk = false →
        (matchModuleWithPdbFile env buf).1.hr < 0 ∧
        (matchModuleWithPdbFile env buf).1.isMatched = false ∧
        (matchModuleWithPdbFile env buf).1.errMsg ≠ "")) := by
  obtain ⟨c1, c2, c3, c4, c5, gr1, sr1, ar1, c6, c7, c8, c9, gr2, sr2, ar2⟩ := env
  constructor
  · intro g1 s1 a1 g2 s2 a2 h1 h2 h3 h4 h5 h6 h7 h8 h9 h10 h11 h12 h13 h14 h15
    simp only at h1 h2 h3 h4 h5 h6 h7 h8 h9 h10 h11 h12 h13 h14 h15
    subst h1 h2 h3 h4 h5 h6 h7 h8 h9 h10 h11 h12 h13 h14 h15
    simp [matchModuleWithPdbFile, S_OK]
    exact and_assoc
  · intro hall
    rcases c1 with ⟨e, he⟩ | u1
    · exact ⟨he, rfl, fmtHr_ne_empty _ _⟩
    rcases c2 with ⟨e, he⟩ | u2
    · exact ⟨he, rfl, fmtHr_ne_empty _ _⟩
    rcases c3 with ⟨e, he⟩ | u3
    · exact ⟨he, rfl, fmtHr_ne_empty _ _⟩
    rcases c4 with ⟨e, he⟩ | u4
    · exact ⟨he, rfl, fmtHr_ne_empty _ _⟩
    rcases c5 with ⟨e, he⟩ | u5
    · exact ⟨he, rfl, fmtHr_ne_empty _ _⟩
    rcases gr1 with ⟨e, he⟩ | g1
    · exact ⟨he, rfl, fmtHr_ne_empty _ _⟩
    rcases sr1 with ⟨e, he⟩ | s1
    · exact ⟨he, rfl, fmtHr_ne_empty _ _⟩
    rcases ar1 with ⟨e, he⟩ | a1
    · exact ⟨he, rfl, fmtHr_ne_empty _ _⟩
    rcases c6 with ⟨e, he⟩ | u6
    · exact ⟨he, rfl, fmtHr_ne_empty _ _⟩
    rcases c7 with ⟨e, he⟩ | u7
    · exact ⟨he, rfl, fmtHr_ne_empty _ _⟩
    rcases c8 with ⟨e, he⟩ | u8
    · exact ⟨he, rfl, fmtHr_ne_empty _ _⟩
    rcases c9 with ⟨e, he⟩ | u9
    · exact ⟨he, rfl, fmtHr_ne_empty _ _⟩
    rcases gr2 with ⟨e, he⟩ | g2
    · exact ⟨he, rfl, fmtHr_ne_empty _ _⟩
    rcases sr2 with ⟨e, he⟩ | s2
    · exact ⟨he, rfl, fmtHr_ne_empty _ _⟩
    rcases ar2 with ⟨e, he⟩ | a2
    · exact ⟨he, rfl, fmtHr_ne_empty _ _⟩
    simp [MatchEnv.allOk, Except.isOk, Except.toBool] at hall

/-- Witness for C2: the matching triple (7, 3, 1) yields `S_OK` and
`isMatched = true`; failing the exe GUID query yields a failure HRESULT,
`isMatched = false` and a non-empty diagnostic. -/
theorem match_identity_triple_spec_witness :
    ((matchModuleWithPdbFile envAllOkM "b").1.hr = S_OK ∧
     ((matchModuleWithPdbFile envAllOkM "b").1.isMatched = true ↔
       ((7 : Nat) = 7 ∧ (3 : Nat) = 3 ∧ (1 : Nat) = 1))) ∧
    ((matchModuleWithPdbFile envGuidFailM "b").1.hr < 0 ∧
     (matchModuleWithPdbFile envGuidFailM "b").1.isMatched = false ∧
     (matchModuleWithPdbFile envGuidFailM "b").1.errMsg ≠ "") :=
  ⟨(match_identity_triple_spec envAllOkM "b").1 7 3 1 7 3 1
      rfl rfl rfl rfl rfl rfl rfl rfl rfl rfl rfl rfl rfl rfl rfl,
   (match_identity_triple_spec envGuidFailM "b").2 rfl⟩

/-- Counterexample to claim C3: when the line query yields two records for
the RVA (the enclosing function having been found), the call does not fail
with any status — it returns `S_OK` with the first record's file and line.
The claim requires a `LineNotFound` failure and no first-of-many fallback. -/
theorem resolve_two_line_records_reports_success :
    (resolveStackFrameSymbols envTwoLines 5 "ob" "ib").hr = S_OK ∧
    FAILED (resolveStackFrameSymbols envTwoLines 5 "ob" "ib").hr = false ∧
    (resolveStackFrameSymbols envTwoLines 5 "ob" "ib").fileName =
      some "first.c" ∧
    (resolveStackFrameSymbols envTwoLines 5 "ob" "ib").lineNumber = 10 :=
  ⟨rfl, rfl, rfl, rfl⟩

/-- Claim C3 as amended: with the function symbol found, a line query that
succeeds with zero records leaves every output unpopulated and returns
`S_FALSE` (1), which is not a failure HRESULT (the enumerator's `Next`
returned `S_FALSE`, and that value is what the function returns); a line
query that succeeds with two or more records behaves exactly as if only the
first record existed, so resolution proceeds on it. -/
theorem resolve_line_enumeration_behavior (sym : DiaSymbolObj) (d : Int)
    (rva : Nat) (ob ib : String) :
    (resolveStackFrameSymbols (mkEnv (.ok (sym, d)) (.ok [])) rva ob ib =
      ⟨S_FALSE, none, 0, none, 0, ob⟩) ∧
    (∀ (l : DiaLineObj) (ls : List DiaLineObj),
      resolveStackFrameSymbols (mkEnv (.ok (sym, d)) (.ok (l :: ls))) rva ob ib =
        resolveStackFrameSymbols (mkEnv (.ok (sym, d)) (.ok [l])) rva ob ib) :=
  ⟨rfl, fun _ _ => rfl⟩

/-- Claim C4 (code bug): on fully successful runs of both entry points the
returned diagnostic is the uninitialized format buffer, not the empty
string — nothing in the success path suppresses it (lines 240 and 443 copy
the buffer unconditionally). -/
theorem success_diagnostic_carries_stale_buffer :
    ((resolveStackFrameSymbols envAllOkR 5 "stale!" "ib").hr = S_OK ∧
     (resolveStackFrameSymbols envAllOkR 5 "stale!" "ib").errorMessage =
       "stale!" ∧
     (resolveStackFrameSymbols envAllOkR 5 "stale!" "ib").errorMessage ≠ "") ∧
    ((matchModuleWithPdbFile envAllOkM "junk").1.hr = S_OK ∧
     (matchModuleWithPdbFile envAllOkM "junk").1.errMsg = "junk" ∧
     (matchModuleWithPdbFile envAllOkM "junk").1.errMsg ≠ "") := by
  refine ⟨⟨rfl, rfl, ?_⟩, rfl, rfl, ?_⟩ <;> decide

/-- Claim C5 (code bug): a failing `ResolveStackFrameSymbols` call can return
an empty diagnostic.  Here the symbol query fails with `E_FAIL` inside the
internal resolver, which formats a message — but line 240 then overwrites
`*ErrorMessageOut` with the outer function's buffer, which was never written
on this path; if that uninitialized buffer is empty, the caller receives a
failure HRESULT with an empty diagnostic.  (The output fields are indeed
fully reset, as the claim also states.) -/
theorem failure_diagnostic_can_be_empty :
    (resolveStackFrameSymbols envSymFailA 5 "" "ib").hr = -2147467259 ∧
    FAILED (resolveStackFrameSymbols envSymFailA 5 "" "ib").hr = true ∧
    (resolveStackFrameSymbols envSymFailA 5 "" "ib").errorMessage = "" ∧
    (resolveStackFrameSymbols envSymFailA 5 "" "ib").fileName = none ∧
    (resolveStackFrameSymbols envSymFailA 5 "" "ib").lineNumber = 0 ∧
    (resolveStackFrameSymbols envSymFailA 5 "" "ib").functionName = none ∧
    (resolveStackFrameSymbols envSymFailA 5 "" "ib").displacement = 0 :=
  ⟨rfl, rfl, rfl, rfl, rfl, rfl, rfl⟩

/-- Claim C6 (code bug): when the first failing step of a
`ResolveStackFrameSymbols` call is inside the internal resolver (here the
symbol query, failing with `E_NOTIMPL`), the diagnostic returned to the
caller is not the message formatted for that step: the enclosing function
overwrites it with its own (uninitialized) buffer at line 240. -/
theorem internal_failure_message_overwritten :
    (resolveStackFrameSymbols envSymFailB 9 "garbage" "ib").hr = -2147467263 ∧
    (resolveStackFrameSymbols envSymFailB 9 "garbage" "ib").errorMessage =
      "garbage" ∧
    (resolveStackFrameSymbols envSymFailB 9 "garbage" "ib").errorMessage ≠
      fmtHr "Failed to find Symbol by RVA" (-2147467263) := by
  refine ⟨rfl, rfl, ?_⟩
  decide

/-- Claim C7: on a resolved frame (symbol found, line details resolved) the
function name output is `nameFallback` of the symbol's name responses, where
`nameFallback` follows exactly the order demangled-name, raw name, literal
`"(None)"` — skipping a stage when its getter did not return `S_OK` or
returned the empty string — and is never the empty string. -/
theorem resolve_function_name_fallback (sym : DiaSymbolObj) (d : Int) (n : Nat)
    (fn : String) (ls : List DiaLineObj) (rva : Nat) (ob ib : String) :
    (resolveStackFrameSymbols (mkEnv (.ok (sym, d)) (.ok (okLine n fn :: ls)))
        rva ob ib).functionName = some (nameFallback sym) ∧
    (∀ s, sym.undecoratedName = Except.ok s → s ≠ "" → nameFallback sym = s) ∧
    (nameAbsent sym.undecoratedName →
      ∀ s, sym.name = Except.ok s → s ≠ "" → nameFallback sym = s) ∧
    (nameAbsent sym.undecoratedName → nameAbsent sym.name →
      nameFallback sym = "(None)") ∧
    nameFallback sym ≠ "" ∧
    (resolveStackFrameSymbols (mkEnv (.ok (sym, d)) (.ok (okLine n fn :: ls)))
        rva ob ib).functionName ≠ some "" := by
  have h0 : (resolveStackFrameSymbols (mkEnv (.ok (sym, d))
      (.ok (okLine n fn :: ls))) rva ob ib).functionName =
      some (nameFallback sym) := rfl
  refine ⟨h0, ?_, ?_, ?_, nameFallback_ne_empty sym, ?_⟩
  · intro s h hs
    simp [nameFallback, h, hs]
  · intro ha s h hs
    rcases hu : sym.undecoratedName with e | u
    · simp [nameFallback, hu, rawNameFallback, h, hs]
    · have hu0 : u = "" := ha u hu
      subst hu0
      simp [nameFallback, hu, rawNameFallback, h, hs]
  · intro ha hb
    have hraw : rawNameFallback sym = "(None)" := by
      rcases hn : sym.name with e2 | v
      · simp [rawNameFallback, hn]
      · have hv : v = "" := hb v hn
        subst hv
        simp [rawNameFallback, hn]
    rcases hu : sym.undecoratedName with e | u
    · simp [nameFallback, hu, hraw]
    · have hu0 : u = "" := ha u hu
      subst hu0
      simp [nameFallback, hu, hraw]
  · rw [h0]
    simp [nameFallback_ne_empty]

/-- Witness for C7: with both name getters answering `S_FALSE`, a resolved
frame carries the sentinel name `"(None)"`. -/
theorem resolve_function_name_fallback_witness :
    (resolveStackFrameSymbols (mkEnv (.ok (symNone, 3))
        (.ok (okLine 10 "w.c" :: []))) 5 "o" "i").functionName =
      some "(None)" := by
  have h := resolve_function_name_fallback symNone 3 10 "w.c" [] 5 "o" "i"
  rw [h.1, h.2.2.2.1 (fun s hs => nomatch hs) (fun s hs => nomatch hs)]

/-- Counterexample to claim C8: in a fully successful run, the debug-store
data source is created at trace position 11 while the first (and only)
`CoUninitialize` — the release of the provider-global COM initialization —
occurs at position 21, after the store was opened and released.  So the
module's provider-global initialization is not released before the
debug-store handle is opened; the initialize/uninitialize pair spans the
whole call. -/
theorem match_global_init_released_after_store_open :
    (matchModuleWithPdbFile envAllOkM "b").2.indexOf MEvent.createPdbDS = 11 ∧
    (matchModuleWithPdbFile envAllOkM "b").2.indexOf MEvent.coUninit = 21 ∧
    (matchModuleWithPdbFile envAllOkM "b").2.length = 22 := by
  refine ⟨?_, ?_, ?_⟩ <;> decide

/-- Claim C8 as amended: in every execution of `MatchModuleWithPdbFile` the
module handle (symbol, session and data source — the data-source release is
the last of the three) is fully released before the debug-store handle is
opened, and the two handles are never open simultaneously; the
provider-global COM initialization, however, is torn down only at the end of
the call, after the store handle is released. -/
theorem match_handles_never_simultaneously_open (env : MatchEnv)
    (buf : String) :
    everBothOpen (matchModuleWithPdbFile env buf).2 = false := by
  obtain ⟨c1, c2, c3, c4, c5, gr1, sr1, ar1, c6, c7, c8, c9, gr2, sr2, ar2⟩ := env
  rcases c1 with ⟨e, he⟩ | u1
  · rfl
  rcases c2 with ⟨e, he⟩ | u2
  · rfl
  rcases c3 with ⟨e, he⟩ | u3
  · rfl
  rcases c4 with ⟨e, he⟩ | u4
  · rfl
  rcases c5 with ⟨e, he⟩ | u5
  · rfl
  rcases gr1 with ⟨e, he⟩ | g1
  · rfl
  rcases sr1 with ⟨e, he⟩ | s1
  · rfl
  rcases ar1 with ⟨e, he⟩ | a1
  · rfl
  rcases c6 with ⟨e, he⟩ | u6
  · rfl
  rcases c7 with ⟨e, he⟩ | u7
  · rfl
  rcases c8 with ⟨e, he⟩ | u8
  · rfl
  rcases c9 with ⟨e, he⟩ | u9
  · rfl
  rcases gr2 with ⟨e, he⟩ | g2
  · rfl
  rcases sr2 with ⟨e, he⟩ | s2
  · rfl
  rcases ar2 with ⟨e, he⟩ | a2
  · rfl
  rfl

/-- Counterexample to claim C9: two runs of `ResolveStackFrameSymbols` with
the same provider responses and the same call arguments, differing only in
the (uninitialized) contents of the stack format buffer — which is not an
input of the C function — return different diagnostic strings on success,
so the full set of outputs is not byte-identical across repeated calls. -/
theorem repeated_call_diagnostics_differ :
    (resolveStackFrameSymbols envAllOkR 5 "X" "i").errorMessage = "X" ∧
    (resolveStackFrameSymbols envAllOkR 5 "Y" "i").errorMessage = "Y" ∧
    (resolveStackFrameSymbols envAllOkR 5 "X" "i").errorMessage ≠
      (resolveStackFrameSymbols envAllOkR 5 "Y" "i").errorMessage := by
  refine ⟨rfl, rfl, ?_⟩
  decide

/-- Fields of the internal resolver's result other than the diagnostic do
not depend on the initial contents of its format buffer. -/
theorem internal_result_buffer_independent (sess : DiaSession) (rva : Nat)
    (b1 b2 : String) :
    (resolveStackFrameSymbolsInternal sess rva b1).hr =
      (resolveStackFrameSymbolsInternal sess rva b2).hr ∧
    (resolveStackFrameSymbolsInternal sess rva b1).fileName =
      (resolveStackFrameSymbolsInternal sess rva b2).fileName ∧
    (resolveStackFrameSymbolsInternal sess rva b1).lineNumber =
      (resolveStackFrameSymbolsInternal sess rva b2).lineNumber ∧
    (resolveStackFrameSymbolsInternal sess rva b1).functionName =
      (resolveStackFrameSymbolsInternal sess rva b2).functionName ∧
    (resolveStackFrameSymbolsInternal sess rva b1).displacement =
      (resolveStackFrameSymbolsInternal sess rva b2).displacement := by
  unfold resolveStackFrameSymbolsInternal
  rcases h1 : sess.findSymbolByRVAEx rva with e | ⟨sym, d⟩
  · simp [h1]
  simp only [h1]
  rcases h2 : sess.findLinesByRVA rva with e | L
  · simp [h2]
  simp only [h2]
  rcases L with _ | ⟨l, rest⟩
  · simp
  rcases h3 : l.lineNumber with e | n
  · simp [h3]
  simp only [h3]
  rcases h4 : l.sourceFile with e | sf
  · simp [h4]
  simp only [h4]
  rcases h5 : sf.fileName with e | fn
  · simp [h5]
  simp [h5]

/-- Claim C9 as amended: with the same provider responses, repeated calls of
either entry point return identical statuses and result fields (and, for the
match entry point, identical event traces); only the diagnostic string can
differ between runs, because on some paths it is a copy of the uninitialized
format buffer, which is not determined by the call's inputs. -/
theorem results_independent_of_buffer_contents (env : DiaEnv)
    (menv : MatchEnv) (rva : Nat) (ob1 ib1 ob2 ib2 b1 b2 : String) :
    ((resolveStackFrameSymbols env rva ob1 ib1).hr =
       (resolveStackFrameSymbols env rva ob2 ib2).hr ∧
     (resolveStackFrameSymbols env rva ob1 ib1).fileName =
       (resolveStackFrameSymbols env rva ob2 ib2).fileName ∧
     (resolveStackFrameSymbols env rva ob1 ib1).lineNumber =
       (resolveStackFrameSymbols env rva ob2 ib2).lineNumber ∧
     (resolveStackFrameSymbols env rva ob1 ib1).functionName =
       (resolveStackFrameSymbols env rva ob2 ib2).functionName ∧
     (resolveStackFrameSymbols env rva ob1 ib1).displacement =
       (resolveStackFrameSymbols env rva ob2 ib2).displacement) ∧
    ((matchModuleWithPdbFile menv b1).1.hr =
       (matchModuleWithPdbFile menv b2).1.hr ∧
     (matchModuleWithPdbFile menv b1).1.isMatched =
       (matchModuleWithPdbFile menv b2).1.isMatched ∧
     (matchModuleWithPdbFile menv b1).2 = (matchModuleWithPdbFile menv b2).2)
    := by
  constructor
  · unfold resolveStackFrameSymbols
    rcases h1 : env.coInitialize with e | u
    · simp
    rcases h2 : env.coCreateInstance with e | u
    · simp
    rcases h3 : env.loadDataFromPdb with e | u
    · simp
    rcases h4 : env.openSession with e | sess
    · simp
    simp only []
    exact internal_result_buffer_independent sess rva ib1 ib2
  · obtain ⟨c1, c2, c3, c4, c5, gr1, sr1, ar1, c6, c7, c8, c9, gr2, sr2, ar2⟩
      := menv
    rcases c1 with ⟨e, he⟩ | u1
    · exact ⟨rfl, rfl, rfl⟩
    rcases c2 with ⟨e, he⟩ | u2
    · exact ⟨rfl, rfl, rfl⟩
    rcases c3 with ⟨e, he⟩ | u3
    · exact ⟨rfl, rfl, rfl⟩
    rcases c4 with ⟨e, he⟩ | u4
    · exact ⟨rfl, rfl, rfl⟩
    rcases c5 with ⟨e, he⟩ | u5
    · exact ⟨rfl, rfl, rfl⟩
    rcases gr1 with ⟨e, he⟩ | g1
    · exact ⟨rfl, rfl, rfl⟩
    rcases sr1 with ⟨e, he⟩ | s1
    · exact ⟨rfl, rfl, rfl⟩
    rcases ar1 with ⟨e, he⟩ | a1
    · exact ⟨rfl, rfl, rfl⟩
    rcases c6 with ⟨e, he⟩ | u6
    · exact ⟨rfl, rfl, rfl⟩
    rcases c7 with ⟨e, he⟩ | u7
    · exact ⟨rfl, rfl, rfl⟩
    rcases c8 with ⟨e, he⟩ | u8
    · exact ⟨rfl, rfl, rfl⟩
    rcases c9 with ⟨e, he⟩ | u9
    · exact ⟨rfl, rfl, rfl⟩
    rcases gr2 with ⟨e, he⟩ | g2
    · exact ⟨rfl, rfl, rfl⟩
    rcases sr2 with ⟨e, he⟩ | s2
    · exact ⟨rfl, rfl, rfl⟩
    rcases ar2 with ⟨e, he⟩ | a2
    · exact ⟨rfl, rfl, rfl⟩
    exact ⟨rfl, rfl, rfl⟩

/-- Two symbol objects with the same display-name fallback produce identical
internal-resolver results. -/
theorem internal_symbol_name_congr (sym1 sym2 : DiaSymbolObj)
    (h : nameFallback sym1 = nameFallback sym2) (d : Int)
    (L : Except FailCode (List DiaLineObj)) (rva : Nat) (b : String) :
    resolveStackFrameSymbolsInternal (mkSession (.ok (sym1, d)) L) rva b =
      resolveStackFrameSymbolsInternal (mkSession (.ok (sym2, d)) L) rva b := by
  simp only [resolveStackFrameSymbolsInternal, mkSession]
  rw [h]

/-- Claim C10: a non-`S_OK` response from either name getter never fails the
overall resolution; the call behaves exactly — in status, outputs and
diagnostic — as if that getter had returned the empty string, so the failure
only advances the name-fallback chain. -/
theorem name_query_failure_acts_as_empty_name (e : Int)
    (other : Except Int String) (d : Int)
    (L : Except FailCode (List DiaLineObj)) (rva : Nat) (ob ib : String) :
    (resolveStackFrameSymbols (mkEnv (.ok (⟨.error e, other⟩, d)) L) rva ob ib =
      resolveStackFrameSymbols (mkEnv (.ok (⟨.ok "", other⟩, d)) L) rva ob ib) ∧
    (resolveStackFrameSymbols (mkEnv (.ok (⟨other, .error e⟩, d)) L) rva ob ib =
      resolveStackFrameSymbols (mkEnv (.ok (⟨other, .ok ""⟩, d)) L) rva ob ib)
    := by
  constructor
  · have h := internal_symbol_name_congr ⟨.error e, other⟩ ⟨.ok "", other⟩
      rfl d L rva ib
    simp only [resolveStackFrameSymbols, mkEnv]
    rw [h]
  · have hnf : nameFallback ⟨other, .error e⟩ = nameFallback ⟨other, .ok ""⟩
        := by
      rcases other with e2 | s
      · rfl
      · by_cases hs : s = "" <;> simp [nameFallback, rawNameFallback, hs]
    have h := internal_symbol_name_congr ⟨other, .error e⟩ ⟨other, .ok ""⟩
      hnf d L rva ib
    simp only [resolveStackFrameSymbols, mkEnv]
    rw [h]

end PdbHelper
